import Mathlib

/-!
# Verification of the Infinity Empires bot's ruin-exploration core

A shallow embedding of the core logic of `src/city_manager.py`
(class `CityManager`): the static ruin-coordinate catalog, the
march-budget probe `count_available_marches`, the exploration loop
`explore_ruins_flow`, the retrying click helper `click_element`, and the
control flow of `search_ruin_at_coordinate`.

External effects (screen detection, taps, file I/O) are modelled as
oracle parameters: a detection outcome is a `Bool` (or `Option` of a
coordinate) supplied by the environment, the persisted dedup file is an
explicit `List String` threaded through the state, and log lines /
`time.sleep` calls are ignored as pure no-ops.
-/

namespace CityManager

/-- `coord_key`: the dedup key `f"{x},{y}"` built for a coordinate pair in
`explore_ruins_flow` (src/city_manager.py line 684). -/
def coord_key (c : Nat × Nat) : String :=
  toString c.1 ++ "," ++ toString c.2

/-- `CityManager.count_available_marches` (src/city_manager.py lines 606-643).
Starts from `march_count = 2`; if the `MarchNb1` config entry exists and the
detector reports the `MarchNb1` image as found, decrements by one; then the
same for `MarchNb2`.  With no device connected it returns 0.  Detection
outcomes and config presence are oracle booleans; the function mutates
nothing (logging is a no-op). -/
def count_available_marches (device has1 found1 has2 found2 : Bool) : Int :=
  if device = false then 0
  else
    let march_count : Int := 2
    let march_count := if has1 then (if found1 then march_count - 1 else march_count) else march_count
    let march_count := if has2 then (if found2 then march_count - 1 else march_count) else march_count
    march_count

/-- The value the spec sentence ascribes to `count_available_marches`:
"each indicator absent reduces the budget by one from a base of two",
i.e. 2 minus the number of the two indicators detected as absent.
This definition follows the spec's words (for comparison with the code);
it is NOT a translation of the source. -/
def count_available_marches_specform (found1 found2 : Bool) : Int :=
  2 - ((if found1 = false then 1 else 0) + (if found2 = false then 1 else 0))

/-- The static ruin coordinate catalog of `CityManager._load_ruin_coordinates`
(src/city_manager.py lines 21-213): an ordered mapping from level name to
area name to an ordered list of (x, y) coordinate pairs.  Python dicts keep
insertion order, so the catalog is modelled as an ordered association list. -/
def load_ruin_coordinates : List (String × List (String × List (Nat × Nat))) := [
  ("Level 1", [
    ("Area 1 (Founding of the Three Kingdoms)", [(15, 149), (33, 175), (34, 110), (73, 58), (119, 50), (130, 85), (133, 133), (140, 88), (157, 131), (156, 90), (172, 111), (180, 59), (193, 26), (193, 45), (200, 151), (211, 43), (214, 34), (226, 36), (238, 72), (243, 39), (246, 30), (266, 90), (270, 57), (289, 128), (310, 120), (314, 60), (350, 55)]),
    ("Area 2 (Discovering Relics)", [(57, 214), (68, 211), (94, 206), (111, 221), (136, 224), (144, 180), (152, 222), (158, 198), (206, 170), (29, 361), (62, 315), (67, 359), (78, 263), (92, 255), (101, 332), (124, 318), (133, 350), (155, 282), (9, 480), (17, 495), (19, 455), (27, 464), (48, 491), (63, 405), (108, 422), (115, 392), (123, 377)]),
    ("Area 3 (War in the Three Kingdoms)", [(49, 575), (52, 557), (64, 532), (71, 559), (81, 620), (96, 566), (114, 574), (132, 583), (138, 593), (17, 746), (18, 710), (21, 721), (32, 637), (36, 710), (37, 726), (53, 727), (55, 639), (71, 711), (46, 777), (54, 819), (63, 800), (67, 753), (84, 736), (84, 826), (100, 790), (102, 798), (126, 805)]),
    ("Area 4 (The Gnome Invasion)", [(76, 840), (143, 880), (152, 833), (152, 853), (152, 860), (153, 921), (164, 893), (172, 834), (194, 834), (191, 895), (205, 937), (221, 873), (265, 862), (275, 890), (279, 865), (298, 957), (306, 908), (314, 932)]),
    ("Area 5 (A New Summons)", [(449, 961), (455, 981), (467, 966), (472, 985), (487, 934), (508, 902), (525, 923), (544, 931), (565, 950), (581, 932), (585, 965), (596, 975)]),
    ("Area 6 (History of the Magic Academy)", [(639, 950), (665, 883), (670, 856), (680, 961), (681, 858), (691, 875), (708, 900), (712, 878), (724, 892), (727, 912), (729, 947), (739, 942)]),
    ("Area 7 (The Dragons and the Treasury)", [(800, 871), (842, 865), (843, 925), (866, 907), (868, 900), (891, 874), (894, 901), (904, 842), (910, 855), (843, 770), (843, 805), (851, 813), (888, 761), (892, 791), (892, 821), (912, 762), (913, 778), (916, 753)]),
    ("Area 8 (Sea Trade)", [(960, 922), (972, 905), (976, 925), (977, 870), (996, 869), (1011, 868), (1012, 910), (1016, 846), (1021, 884), (1059, 886), (1091, 879), (1094, 900), (1095, 891), (1104, 835), (1115, 907), (1137, 854), (1149, 844), (1159, 833), (1032, 936), (1037, 926), (1062, 948), (1072, 940), (1077, 932), (1104, 977), (1113, 924), (1123, 966), (1133, 948)]),
    ("Area 9 (The Call of the Three Kingdoms)", [(972, 791), (990, 821), (1013, 754), (1022, 823), (1023, 746), (1033, 850), (1036, 778), (1036, 817), (1046, 778), (1103, 782), (1116, 730), (1138, 782), (1139, 717), (1143, 775), (1155, 786), (1164, 781), (1179, 755), (1180, 765)]),
    ("Area 10 (The Doomsday Prophecy)", [(1052, 715), (1063, 636), (1067, 726), (1073, 697), (1075, 688), (1119, 670), (1121, 624), (1139, 629), (1139, 664), (1012, 574), (1016, 585), (1020, 608), (1038, 555), (1039, 593), (1041, 562), (1058, 575), (1067, 573), (1096, 599)]),
    ("Area 11 (Harold\x27s Ice Wall)", [(1073, 438), (1102, 417), (1103, 475), (1105, 496), (1116, 449), (1122, 487), (1134, 535), (1138, 547), (1144, 415), (1043, 348), (1053, 343), (1070, 383), (1072, 346), (1079, 303), (1102, 377), (1110, 397), (1152, 402), (1153, 414)]),
    ("Area 12 (The Royal Alchemist Academy)", [(1008, 261), (1031, 239), (1040, 199), (1041, 220), (1042, 287), (1052, 206), (1065, 217), (1075, 238), (1079, 278), (1055, 197), (1093, 148), (1101, 244), (1107, 142), (1118, 216), (1120, 185), (1129, 151), (1149, 221), (1156, 168)]),
    ("Area 13 (Sovereign Tomb)", [(943, 228), (944, 175), (961, 149), (968, 174), (984, 147), (1008, 128), (1020, 199), (1039, 137), (1053, 136), (1023, 70), (1024, 43), (1037, 98), (1045, 76), (1073, 114), (1112, 98), (1134, 70), (1152, 68), (1169, 113)]),
    ("Area 14 (Hornheim\x27s Disappearance)", [(732, 123), (737, 87), (753, 141), (769, 84), (773, 163), (787, 226), (797, 202), (801, 123), (811, 123), (848, 124), (853, 92), (853, 105), (885, 93), (901, 115), (919, 62), (954, 113), (986, 123), (1007, 101)]),
    ("Area 15 (The Empire Crumbles)", [(361, 82), (375, 141), (378, 56), (389, 108), (394, 140), (400, 182), (426, 68), (449, 93), (451, 131), (468, 72), (487, 87), (497, 63), (501, 99), (505, 65), (514, 144), (517, 113), (526, 172), (554, 107), (568, 160), (579, 142), (595, 73), (601, 96), (608, 74), (629, 93), (647, 182), (673, 115), (710, 87)])
  ]),
  ("Level 2", [
    ("Area 16 (Sage Council)", [(145, 260), (155, 267), (167, 286), (170, 329), (177, 278), (224, 222), (239, 222), (243, 232), (255, 262), (242, 199), (257, 231), (269, 231), (283, 203), (306, 165), (309, 192), (338, 129), (365, 160), (368, 141)]),
    ("Area 17 (Enigma Lieu)", [(140, 392), (144, 459), (151, 353), (154, 367), (164, 447), (165, 405), (180, 425), (184, 378), (190, 412), (211, 369), (214, 430), (235, 353)]),
    ("Area 18 (Well of Time)", [(151, 468), (155, 483), (192, 558), (193, 520), (208, 442), (210, 542), (229, 537), (233, 509), (246, 549), (264, 557), (280, 514), (300, 536)]),
    ("Area 19 (The First Gnome Invasion)", [(129, 726), (149, 700), (172, 723), (184, 690), (190, 664), (198, 687), (211, 708), (212, 642), (218, 705), (244, 655), (258, 654), (266, 683), (117, 642), (125, 631), (127, 653), (161, 614), (167, 641), (177, 570), (178, 613), (195, 617), (203, 644), (204, 606), (247, 606), (261, 645)]),
    ("Area 20 (Above and Below)", [(226, 840), (258, 809), (270, 801), (273, 844), (284, 828), (295, 767), (308, 760), (321, 751), (341, 770), (149, 763), (174, 755), (179, 783), (224, 781), (238, 707), (241, 773), (278, 704), (282, 691), (298, 738)]),
    ("Area 21 (Summoning Ban)", [(483, 835), (494, 859), (516, 809), (517, 754), (523, 809), (535, 806), (543, 782), (556, 789), (571, 809), (352, 860), (363, 884), (374, 894), (386, 844), (386, 871), (403, 926), (418, 928), (419, 845), (423, 916)]),
    ("Area 22 (World Heart)", [(642, 846), (646, 858), (657, 841), (663, 765), (673, 766), (686, 835), (690, 853), (698, 740), (726, 847), (553, 893), (557, 868), (572, 854), (574, 894), (590, 899), (591, 892), (596, 938), (604, 900), (609, 911)]),
    ("Area 23 (Terrifying Rumors)", [(835, 665), (836, 692), (840, 681), (856, 674), (856, 684), (875, 694), (880, 728), (889, 684), (890, 668), (717, 801), (718, 750), (738, 804), (740, 812), (772, 776), (784, 778), (788, 816), (814, 815), (820, 807)]),
    ("Area 24 (Founding of the Empire)", [(885, 605), (915, 620), (915, 653), (918, 667), (925, 666), (927, 644), (943, 661), (945, 599), (947, 653), (948, 588), (965, 606), (975, 656), (926, 764), (929, 705), (930, 777), (933, 743), (956, 787), (958, 726), (967, 697), (975, 762), (980, 751), (978, 688), (1006, 667), (1022, 671)]),
    ("Area 25 (Five Great Kingdoms)", [(899, 367), (933, 323), (936, 399), (955, 385), (958, 475), (959, 416), (974, 394), (1011, 368), (1016, 347), (977, 447), (989, 435), (1003, 404), (1016, 481), (1024, 388), (1036, 470), (1041, 440), (1047, 410), (1085, 398)]),
    ("Area 26 (The Gnome\x27s Birth and Exile)", [(877, 254), (888, 260), (910, 256), (922, 267), (927, 292), (932, 285), (933, 304), (936, 316), (952, 280), (953, 243), (958, 264), (960, 328), (978, 298), (982, 321), (991, 287)]),
    ("Area 27 (The War of Five Kingdoms)", [(752, 234), (754, 200), (758, 213), (763, 301), (787, 306), (792, 343), (799, 293), (804, 314), (836, 283), (816, 200), (820, 211), (833, 224), (880, 220), (899, 188), (908, 154), (911, 229), (914, 194), (931, 188)]),
    ("Area 28 (The Alchemists)", [(367, 186), (414, 209), (420, 267), (426, 191), (428, 247), (453, 204), (467, 249), (493, 222), (501, 228), (518, 253), (538, 241), (539, 251), (546, 188), (554, 217), (558, 266), (572, 233), (600, 192), (624, 199), (646, 226), (669, 224), (695, 183), (696, 192), (697, 158), (706, 152), (706, 216), (722, 214), (734, 172)]),
    ("Area 29 (Hornheim)", [(337, 282), (341, 210), (358, 224), (358, 235), (360, 246), (362, 196), (364, 276), (369, 251), (383, 307), (386, 234), (406, 283), (415, 291)])
  ]),
  ("Level 3", [
    ("Area 30 (Stela of New World)", [(268, 379), (285, 252), (289, 361), (299, 330), (301, 263), (309, 257), (310, 275), (315, 315), (356, 332), (260, 397), (276, 411), (287, 419), (295, 453), (314, 454), (326, 423), (335, 383), (338, 402), (397, 420)]),
    ("Area 31 (Temple of Norheim)", [(269, 666), (279, 581), (296, 678), (332, 570), (333, 556), (343, 615), (376, 589), (386, 547), (395, 567), (336, 710), (344, 751), (356, 656), (357, 756), (367, 712), (373, 668), (381, 741), (386, 624), (406, 636)]),
    ("Area 32 (History of the Tribes)", [(362, 821), (384, 808), (401, 821), (421, 812), (426, 758), (457, 815), (466, 752), (477, 775), (490, 742), (437, 658), (494, 652), (504, 694), (508, 644), (518, 666), (522, 699), (535, 688), (539, 673), (543, 682), (526, 745), (539, 748), (565, 756), (569, 708), (591, 728), (600, 730), (612, 708), (624, 759), (626, 774)]),
    ("Area 33 (Forbidden Zone)", [(739, 677), (740, 707), (747, 748), (774, 643), (775, 740), (777, 692), (790, 690), (800, 657), (812, 688), (801, 621), (808, 650), (809, 664), (818, 593), (825, 648), (830, 615), (837, 622), (837, 632), (878, 604)]),
    ("Area 34 (Creation and the Guardians)", [(925, 497), (932, 554), (935, 500), (942, 571), (950, 534), (960, 493), (984, 510), (989, 547), (991, 554), (998, 538), (1014, 504), (1039, 507)]),
    ("Area 35 (The Energy Circle)", [(801, 548), (806, 558), (859, 515), (868, 523), (868, 533), (893, 564), (897, 511), (903, 492), (907, 483), (804, 390), (822, 399), (842, 400), (853, 413), (861, 363), (862, 329), (876, 356), (886, 375), (900, 331)]),
    ("Area 36 (The Destruction of Civilization)", [(661, 276), (675, 271), (691, 253), (693, 272), (705, 328), (708, 311), (721, 292), (727, 264), (727, 314), (729, 294), (738, 265), (738, 333)]),
    ("Area 37 (The Memory Modification)", [(463, 325), (471, 291), (486, 287), (498, 343), (501, 329), (511, 286), (517, 358), (538, 337), (544, 310), (545, 345), (563, 357), (576, 352)])
  ])
]

/-- The catalog flattened in iteration order: exactly the sequence of
coordinates the triple loop of `explore_ruins_flow` (lines 667-683) visits,
in fixed (level, area, coordinate) order. -/
def catalog_coords : List (Nat × Nat) :=
  load_ruin_coordinates.flatMap (fun lv => lv.2.flatMap (fun ar => ar.2))

/-- The mutable state of one `explore_ruins_flow` run (lines 659-664):
`marches_used`, the in-memory `explored_ruins` list, the content `disk` of
`explored_ruins.json` (updated by `save_explored_ruins`, lines 505-511),
and the trace `probes` of coordinates `search_ruin_at_coordinate` was
invoked on. -/
structure FlowState where
  marches_used : Nat
  explored : List String
  disk : List String
  probes : List (Nat × Nat)
deriving Repr, DecidableEq

/-- The body of the innermost loop of `explore_ruins_flow` (lines 679-699)
for one coordinate `c`.  `B` is `available_marches`; `probe c` is the
outcome of `search_ruin_at_coordinate` at `c` (each coordinate is probed at
most once per run, so an outcome per coordinate is fully general).  The
`break` on `marches_used >= available_marches` is modelled as a guard
leaving the state unchanged: since `marches_used` never decreases, once the
guard holds every later iteration of every enclosing loop is also skipped,
which is exactly the effect of the cascading `break`s at lines 668, 674
and 680. -/
def flow_step (B : Int) (probe : Nat × Nat → Bool) (st : FlowState) (c : Nat × Nat) :
    FlowState :=
  if (st.marches_used : Int) ≥ B then st
  else if coord_key c ∈ st.explored then st
  else
    let st' := if probe c then { st with marches_used := st.marches_used + 1 } else st
    let explored' := st'.explored ++ [coord_key c]
    { st' with explored := explored', disk := explored', probes := st'.probes ++ [c] }

/-- Inner `for coord in coordinates` loop (lines 679-699). -/
def flow_area (B : Int) (probe : Nat × Nat → Bool) (st : FlowState)
    (coords : List (Nat × Nat)) : FlowState :=
  coords.foldl (flow_step B probe) st

/-- Middle `for area_name, coordinates in areas.items()` loop
(lines 673-699), with the `break` of line 675 as a guard. -/
def flow_areas (B : Int) (probe : Nat × Nat → Bool) (st : FlowState)
    (areas : List (String × List (Nat × Nat))) : FlowState :=
  areas.foldl
    (fun s ar => if (s.marches_used : Int) ≥ B then s else flow_area B probe s ar.2) st

/-- Outer `for level, areas in ruin_coords.items()` loop (lines 667-699),
with the `break` of line 669 as a guard. -/
def flow_levels (B : Int) (probe : Nat × Nat → Bool) (st : FlowState)
    (levels : List (String × List (String × List (Nat × Nat)))) : FlowState :=
  levels.foldl
    (fun s lv => if (s.marches_used : Int) ≥ B then s else flow_areas B probe s lv.2) st

/-- Result of a whole `explore_ruins_flow` run. -/
structure FlowResult where
  ret : Bool
  explored : List String
  disk : List String
  marches_used : Nat
  probes : List (Nat × Nat)
deriving Repr, DecidableEq

/-- `CityManager.explore_ruins_flow` (src/city_manager.py lines 645-710).
`B` is the value `count_available_marches` returned, `E` the content of
`explored_ruins.json` loaded by `load_explored_ruins` (lines 513-522), and
`probe` the per-coordinate outcome of `search_ruin_at_coordinate`.  When
`B == 0` the function returns `False` at line 657 before loading the
explored list or touching the disk.  Otherwise the triple loop runs and the
function returns `marches_used > 0` (line 710); the trailing home-button
click (lines 706-708) does not affect any modelled state. -/
def explore_ruins_flow (B : Int) (E : List String) (probe : Nat × Nat → Bool) :
    FlowResult :=
  if B = 0 then
    { ret := false, explored := E, disk := E, marches_used := 0, probes := [] }
  else
    let st := flow_levels B probe
      { marches_used := 0, explored := E, disk := E, probes := [] }
      load_ruin_coordinates
    { ret := decide (st.marches_used > 0), explored := st.explored, disk := st.disk,
      marches_used := st.marches_used, probes := st.probes }

/-! ## `click_element` (src/city_manager.py lines 276-316)

Detection is an oracle `detect : Nat → Option (Nat × Nat)` giving, per
attempt index, the centre coordinates of the element if the detector
reports it found at that attempt (the configured threshold is part of the
environment and lives inside the oracle).  `tap` is the outcome of
`self.bot.click_coordinate`. -/

/-- The X-coordinate adjustment of lines 298-303: `coordX`/`coordY`
clicks are shifted by +45, every other element is clicked at its centre. -/
def adjust_click_x (element_name : String) (cx : Nat) : Nat :=
  if element_name = "coordX" ∨ element_name = "coordY" then cx + 45 else cx

/-- The `for attempt in range(max_attempts)` retry loop of lines 287-316,
started at attempt index `a` with `rem` attempts remaining.  Returns the
boolean result together with the number of detection calls performed.
On a detection hit the element is tapped once and the loop returns the tap
outcome (lines 294-310); a miss falls through to the next attempt; an
exhausted loop returns `False` (lines 315-316). -/
def click_loop (element_name : String) (detect : Nat → Option (Nat × Nat))
    (tap : Nat × Nat → Bool) : Nat → Nat → Bool × Nat
  | _, 0 => (false, 0)
  | a, rem + 1 =>
    match detect a with
    | some (cx, cy) => (tap (adjust_click_x element_name cx, cy), 1)
    | none =>
      let r := click_loop element_name detect tap (a + 1) rem
      (r.1, r.2 + 1)

/-- `CityManager.click_element` (lines 276-316): returns `(result, number
of detection calls)`.  No device (lines 278-280) or a missing config entry
(lines 282-285) short-circuit to `False` with no detection call. -/
def click_element (element_name : String) (device has_config : Bool)
    (detect : Nat → Option (Nat × Nat)) (tap : Nat × Nat → Bool)
    (max_attempts : Nat) : Bool × Nat :=
  if device = false then (false, 0)
  else if has_config = false then (false, 0)
  else click_loop element_name detect tap 0 max_attempts

/-! ## `search_ruin_at_coordinate` (src/city_manager.py lines 555-604)

The body is embedded as a small statement language so that reachability of
its parts is provable: `exec` returns `some b` when the body executed a
`return b`, together with the trace of UI-probe calls it made, in order.
Each probe (an `input_coordinate` call or a `click_element` call) gets an
outcome from the oracle. -/

/-- The UI probes `search_ruin_at_coordinate` can make. -/
inductive ProbeId where
  | inputX | inputY | exploreNew
  | foundRuin6 | foundRuin4 | foundRuin5 | foundRuin3 | ruin1231d12d
deriving DecidableEq, Repr

/-- Statements: `ret b` is `return b`; `probe p t e` runs `t` if probe `p`
succeeds and `e` otherwise; `skip` covers raw taps, sleeps and logging. -/
inductive Stmt where
  | ret (b : Bool)
  | probe (p : ProbeId) (thn els : Stmt)
  | seq (s1 s2 : Stmt)
  | skip
deriving Repr

/-- Execute a statement against a probe oracle: result (`some b` for
`return b`, `none` for fall-through) and ordered trace of probes made. -/
def Stmt.exec : Stmt → (ProbeId → Bool) → Option Bool × List ProbeId
  | .ret b, _ => (some b, [])
  | .skip, _ => (none, [])
  | .probe p t e, o =>
    let r := if o p then t.exec o else e.exec o
    (r.1, p :: r.2)
  | .seq s1 s2, o =>
    match s1.exec o with
    | (some b, tr) => (some b, tr)
    | (none, tr) =>
      let r := s2.exec o
      (r.1, tr ++ r.2)

/-- The ruin-variant detection block, lines 581-604: the `for ruin_variant
in ruin_variants` loop with its `break` unrolled over the five variants;
on a hit, sleep then a second `exploreNew` click decides the return value
(lines 591-601); with no hit, `return False` (lines 602-604). -/
def ruin_variant_block : Stmt :=
  let after_found : Stmt := .seq .skip (.probe .exploreNew (.ret true) (.ret false))
  .probe .foundRuin6 after_found
    (.probe .foundRuin4 after_found
      (.probe .foundRuin5 after_found
        (.probe .foundRuin3 after_found
          (.probe .ruin1231d12d after_found (.ret false)))))

/-- The whole body of `search_ruin_at_coordinate`, lines 555-604:
input X (return `False` on failure, line 560-561), input Y (lines 564-565),
two raw taps and sleeps (lines 567-572), then the first `exploreNew` click
whose both branches return (lines 574-580), followed by
`ruin_variant_block`. -/
def search_ruin_at_coordinate_body : Stmt :=
  .seq (.probe .inputX .skip (.ret false))
    (.seq (.probe .inputY .skip (.ret false))
      (.seq .skip
        (.seq (.probe .exploreNew (.ret true) (.ret false))
          ruin_variant_block)))

/-- The probes belonging to the ruin-variant block (including its second
`exploreNew` click is counted separately below). -/
def is_ruin_variant_probe : ProbeId → Bool
  | .foundRuin6 | .foundRuin4 | .foundRuin5 | .foundRuin3 | .ruin1231d12d => true
  | _ => false

/-! ## Auxiliary definitions for the proofs -/

/-- Encoding of a coordinate pair into a single natural number; injective
on pairs whose second component is below 1024, which holds for every
catalog entry. -/
def enc_pair (c : Nat × Nat) : Nat := c.1 * 1024 + c.2

/-- Linear-pass distinctness check for a list of encoded coordinates:
`acc` is a bitset whose bit `e` is set iff `e` was already seen. -/
def distinct_bits : List Nat → Nat → Bool
  | [], _ => true
  | e :: t, acc => !(acc.testBit e) && distinct_bits t (acc ||| (1 <<< e))

/-- Invariant of one `explore_ruins_flow` run, relating a loop state to
the initially loaded explored list `E` and the budget `B`:
`marches_used` counts the successful probes; the in-memory explored list
is `E` extended by the keys of the probed coordinates in order; the disk
copy is in sync as soon as one probe happened; no coordinate is probed
twice; probed coordinates were not in `E`; and every probe was made while
strictly under budget. -/
def FlowInv (B : Int) (probe : Nat × Nat → Bool) (E : List String)
    (st : FlowState) : Prop :=
  st.marches_used = st.probes.countP probe ∧
  st.explored = E ++ st.probes.map coord_key ∧
  (st.disk = st.explored ∨ (st.probes = [] ∧ st.disk = E)) ∧
  st.probes.Nodup ∧
  (∀ c ∈ st.probes, coord_key c ∉ E) ∧
  (∀ i < st.probes.length, ((st.probes.take i).countP probe : Int) < B) ∧
  (0 ≤ B → (st.marches_used : Int) ≤ B)

/-! ## Lemmas about the exploration loop -/

/-- Case analysis form of `flow_step`. -/
theorem flow_step_eq (B : Int) (probe : Nat × Nat → Bool) (st : FlowState) (c : Nat × Nat) :
    flow_step B probe st c =
      if (st.marches_used : Int) ≥ B then st
      else if coord_key c ∈ st.explored then st
      else if probe c then
        { marches_used := st.marches_used + 1, explored := st.explored ++ [coord_key c],
          disk := st.explored ++ [coord_key c], probes := st.probes ++ [c] }
      else
        { marches_used := st.marches_used, explored := st.explored ++ [coord_key c],
          disk := st.explored ++ [coord_key c], probes := st.probes ++ [c] } := by
  unfold flow_step
  split_ifs <;> rfl

/-- Once the budget is reached, a single loop step is a no-op. -/
theorem flow_step_budget_reached {B : Int} {probe : Nat × Nat → Bool} {st : FlowState}
    (c : Nat × Nat) (h : (st.marches_used : Int) ≥ B) : flow_step B probe st c = st := by
  rw [flow_step_eq, if_pos h]

/-- Once the budget is reached, the rest of the walk is a no-op: this is
why modelling `break` as a per-step guard is faithful. -/
theorem foldl_flow_step_budget_reached {B : Int} {probe : Nat × Nat → Bool} {st : FlowState}
    (l : List (Nat × Nat)) (h : (st.marches_used : Int) ≥ B) :
    l.foldl (flow_step B probe) st = st := by
  induction l with
  | nil => rfl
  | cons c l ih => rw [List.foldl_cons, flow_step_budget_reached c h]; exact ih

/-- `marches_used` never decreases along a step. -/
theorem flow_step_marches_le (B : Int) (probe : Nat × Nat → Bool) (st : FlowState)
    (c : Nat × Nat) : st.marches_used ≤ (flow_step B probe st c).marches_used := by
  rw [flow_step_eq]
  split_ifs <;> simp

/-- `marches_used` never decreases along a walk. -/
theorem foldl_flow_step_marches_le (B : Int) (probe : Nat × Nat → Bool)
    (l : List (Nat × Nat)) (st : FlowState) :
    st.marches_used ≤ (l.foldl (flow_step B probe) st).marches_used := by
  induction l generalizing st with
  | nil => exact Nat.le_refl _
  | cons c l ih =>
    rw [List.foldl_cons]
    exact Nat.le_trans (flow_step_marches_le B probe st c) (ih _)

/-- The middle loop with its `break` guard equals a plain walk over the
concatenation of its areas' coordinate lists. -/
theorem flow_areas_eq_foldl (B : Int) (probe : Nat × Nat → Bool) (st : FlowState)
    (areas : List (String × List (Nat × Nat))) :
    flow_areas B probe st areas =
      (areas.flatMap (fun ar => ar.2)).foldl (flow_step B probe) st := by
  induction areas generalizing st with
  | nil => rfl
  | cons ar areas ih =>
    rw [flow_areas, List.foldl_cons, List.flatMap_cons, List.foldl_append]
    by_cases h : (st.marches_used : Int) ≥ B
    · rw [if_pos h, foldl_flow_step_budget_reached ar.2 h]
      exact ih st
    · rw [if_neg h]
      exact ih _

/-- The outer loop with its `break` guards equals a plain walk over the
fully flattened catalog. -/
theorem flow_levels_eq_foldl (B : Int) (probe : Nat × Nat → Bool) (st : FlowState)
    (levels : List (String × List (String × List (Nat × Nat)))) :
    flow_levels B probe st levels =
      (levels.flatMap (fun lv => lv.2.flatMap (fun ar => ar.2))).foldl (flow_step B probe) st := by
  induction levels generalizing st with
  | nil => rfl
  | cons lv levels ih =>
    rw [flow_levels, List.foldl_cons, List.flatMap_cons, List.foldl_append]
    by_cases h : (st.marches_used : Int) ≥ B
    · rw [if_pos h, foldl_flow_step_budget_reached _ h]
      exact ih st
    · rw [if_neg h, flow_areas_eq_foldl]
      exact ih _

/-- For a nonzero budget, `explore_ruins_flow` is the plain walk of
`catalog_coords` from the freshly loaded state. -/
theorem explore_ruins_flow_eq_foldl (B : Int) (E : List String)
    (probe : Nat × Nat → Bool) (h : ¬ B = 0) :
    explore_ruins_flow B E probe =
      (fun st => { ret := decide (st.marches_used > 0), explored := st.explored,
                   disk := st.disk, marches_used := st.marches_used, probes := st.probes })
        (catalog_coords.foldl (flow_step B probe)
          { marches_used := 0, explored := E, disk := E, probes := [] }) := by
  rw [explore_ruins_flow, if_neg h, flow_levels_eq_foldl]
  rfl

/-- The run invariant is preserved by one loop step. -/
theorem flow_step_inv {B : Int} {probe : Nat × Nat → Bool} {E : List String}
    {st : FlowState} (c : Nat × Nat) (h : FlowInv B probe E st) :
    FlowInv B probe E (flow_step B probe st c) := by
  obtain ⟨h_used, h_exp, h_disk, h_nd, h_notE, h_pref, h_le⟩ := h
  rw [flow_step_eq]
  split_ifs with h1 h2 h3
  · exact ⟨h_used, h_exp, h_disk, h_nd, h_notE, h_pref, h_le⟩
  · exact ⟨h_used, h_exp, h_disk, h_nd, h_notE, h_pref, h_le⟩
  all_goals {
    have h_cnotin : c ∉ st.probes := by
      intro hc
      exact h2 (h_exp ▸ List.mem_append_right E (List.mem_map_of_mem coord_key hc))
    have h_keyE : coord_key c ∉ E := by
      intro hc
      exact h2 (h_exp ▸ List.mem_append_left _ hc)
    have h_lt : (st.marches_used : Int) < B := lt_of_not_ge h1
    refine ⟨?_, ?_, Or.inl rfl, ?_, ?_, ?_, ?_⟩ <;> dsimp only
    · simp only [List.countP_append, List.countP_cons, List.countP_nil]
      first
      | (rw [if_pos h3]; omega)
      | (rw [if_neg h3]; omega)
    · simp only [h_exp, List.map_append, List.append_assoc, List.map_cons, List.map_nil]
    · refine List.Nodup.append h_nd (List.nodup_singleton c) ?_
      intro x hx hxc
      rw [List.mem_singleton] at hxc
      exact h_cnotin (hxc ▸ hx)
    · intro c' hc'
      rcases List.mem_append.1 hc' with hmem | hmem
      · exact h_notE c' hmem
      · rw [List.mem_singleton.1 hmem]
        exact h_keyE
    · intro i hi
      simp only [List.length_append, List.length_cons, List.length_nil] at hi
      rcases Nat.lt_or_ge i st.probes.length with hlen | hlen
      · rw [List.take_append_of_le_length (Nat.le_of_lt hlen)]
        exact h_pref i hlen
      · have hieq : i = st.probes.length := by omega
        rw [hieq, List.take_append_of_le_length (Nat.le_refl _), List.take_length]
        omega
    · intro hB
      omega
  }

/-- The run invariant is preserved by a whole walk. -/
theorem foldl_flow_step_inv {B : Int} {probe : Nat × Nat → Bool} {E : List String}
    (l : List (Nat × Nat)) {st : FlowState} (h : FlowInv B probe E st) :
    FlowInv B probe E (l.foldl (flow_step B probe) st) := by
  induction l generalizing st with
  | nil => exact h
  | cons c l ih => exact ih (flow_step_inv c h)

/-- The state loaded at flow start satisfies the run invariant. -/
theorem flow_inv_init (B : Int) (probe : Nat × Nat → Bool) (E : List String) :
    FlowInv B probe E { marches_used := 0, explored := E, disk := E, probes := [] } := by
  refine ⟨rfl, by simp, Or.inr ⟨rfl, rfl⟩, List.nodup_nil, ?_, ?_, ?_⟩
  · intro c hc
    exact absurd hc (List.not_mem_nil c)
  · intro i hi
    exact absurd hi (Nat.not_lt_zero i)
  · intro hB
    exact hB

/-- A step either leaves the probe trace alone or appends the visited
coordinate to it. -/
theorem flow_step_probes (B : Int) (probe : Nat × Nat → Bool) (st : FlowState)
    (c : Nat × Nat) :
    (flow_step B probe st c).probes = st.probes ∨
      (flow_step B probe st c).probes = st.probes ++ [c] := by
  rw [flow_step_eq]
  split_ifs <;> simp

/-- A walk appends to the probe trace a subsequence of the coordinates it
walks, in their order. -/
theorem foldl_flow_step_probes_sublist (B : Int) (probe : Nat × Nat → Bool)
    (l : List (Nat × Nat)) (st : FlowState) :
    ∃ t, (l.foldl (flow_step B probe) st).probes = st.probes ++ t ∧ t.Sublist l := by
  induction l generalizing st with
  | nil => exact ⟨[], by simp⟩
  | cons c l ih =>
    rw [List.foldl_cons]
    obtain ⟨t, ht, hs⟩ := ih (flow_step B probe st c)
    rcases flow_step_probes B probe st c with hp | hp
    · exact ⟨t, by rw [ht, hp], hs.cons c⟩
    · refine ⟨c :: t, ?_, hs.cons₂ c⟩
      rw [ht, hp, List.append_assoc, List.singleton_append]

/-- A step only ever appends to the in-memory explored list. -/
theorem flow_step_explored_prefix (B : Int) (probe : Nat × Nat → Bool) (st : FlowState)
    (c : Nat × Nat) :
    ∃ t, (flow_step B probe st c).explored = st.explored ++ t := by
  rw [flow_step_eq]
  split_ifs
  · exact ⟨[], by simp⟩
  · exact ⟨[], by simp⟩
  · exact ⟨[coord_key c], rfl⟩
  · exact ⟨[coord_key c], rfl⟩

/-- A walk only ever appends to the in-memory explored list. -/
theorem foldl_flow_step_explored_prefix (B : Int) (probe : Nat × Nat → Bool)
    (l : List (Nat × Nat)) (st : FlowState) :
    ∃ t, (l.foldl (flow_step B probe) st).explored = st.explored ++ t := by
  induction l generalizing st with
  | nil => exact ⟨[], by simp⟩
  | cons c l ih =>
    rw [List.foldl_cons]
    obtain ⟨t1, ht1⟩ := flow_step_explored_prefix B probe st c
    obtain ⟨t2, ht2⟩ := ih (flow_step B probe st c)
    exact ⟨t1 ++ t2, by rw [ht2, ht1, List.append_assoc]⟩

/-- Budget dichotomy: a walk either ends at (or beyond) the budget, or it
has marked every coordinate it walked as explored. -/
theorem foldl_flow_step_budget_or_explored (B : Int) (probe : Nat × Nat → Bool)
    (l : List (Nat × Nat)) (st : FlowState) :
    B ≤ ((l.foldl (flow_step B probe) st).marches_used : Int) ∨
      ∀ c ∈ l, coord_key c ∈ (l.foldl (flow_step B probe) st).explored := by
  induction l generalizing st with
  | nil => exact Or.inr (fun c hc => absurd hc (List.not_mem_nil c))
  | cons c l ih =>
    rw [List.foldl_cons]
    by_cases h1 : (st.marches_used : Int) ≥ B
    · left
      rw [flow_step_budget_reached c h1, foldl_flow_step_budget_reached l h1]
      exact h1
    rcases ih (flow_step B probe st c) with hB | hall
    · exact Or.inl hB
    · right
      intro c' hc'
      rcases List.mem_cons.1 hc' with hc' | hc'
      · rw [hc']
        obtain ⟨t2, ht2⟩ := foldl_flow_step_explored_prefix B probe l (flow_step B probe st c)
        rw [ht2]
        refine List.mem_append_left t2 ?_
        rw [flow_step_eq, if_neg h1]
        by_cases h2 : coord_key c ∈ st.explored
        · rwa [if_pos h2]
        · rw [if_neg h2]
          split_ifs <;> exact List.mem_append_right _ (List.mem_singleton_self _)
      · exact hall c' hc'

/-! ## Auxiliary lemmas -/

/-- Soundness of the bitset distinctness check: a `true` verdict from an
accumulator means no listed element's bit is set in the accumulator and
the list has no duplicates. -/
theorem distinct_bits_sound :
    ∀ (l : List Nat) (acc : Nat), distinct_bits l acc = true →
      (∀ e ∈ l, acc.testBit e = false) ∧ l.Nodup := by
  intro l
  induction l with
  | nil => exact fun acc _ => ⟨fun e he => absurd he (List.not_mem_nil e), List.nodup_nil⟩
  | cons e t ih =>
    intro acc h
    rw [distinct_bits, Bool.and_eq_true, Bool.not_eq_true'] at h
    obtain ⟨hbit, hrest⟩ := h
    obtain ⟨hall, hnd⟩ := ih (acc ||| (1 <<< e)) hrest
    have hnotmem : e ∉ t := by
      intro hmem
      have := hall e hmem
      rw [Nat.testBit_lor, Nat.shiftLeft_eq, Nat.one_mul, Nat.testBit_two_pow_self] at this
      simp at this
    refine ⟨?_, List.nodup_cons.2 ⟨hnotmem, hnd⟩⟩
    intro x hx
    rcases List.mem_cons.1 hx with hx | hx
    · rw [hx]
      exact hbit
    · have := hall x hx
      rw [Nat.testBit_lor, Bool.or_eq_false_iff] at this
      exact this.1

/-- A list containing two distinct elements has length at least two. -/
theorem two_le_length_of_two_mem {α : Type} [DecidableEq α] {a b : α} {l : List α}
    (ha : a ∈ l) (hb : b ∈ l) (hab : a ≠ b) : 2 ≤ l.length := by
  have hsub : ({a, b} : Finset α) ⊆ l.toFinset := by
    intro x hx
    rcases Finset.mem_insert.1 hx with hx | hx
    · rw [hx]; exact List.mem_toFinset.2 ha
    · rw [Finset.mem_singleton.1 hx]; exact List.mem_toFinset.2 hb
  calc 2 = ({a, b} : Finset α).card := (Finset.card_pair hab).symm
    _ ≤ l.toFinset.card := Finset.card_le_card hsub
    _ ≤ l.length := l.toFinset_card_le

/-- The march budget probe always returns a value between 0 and 2. -/
theorem count_available_marches_bounds (device has1 found1 has2 found2 : Bool) :
    0 ≤ count_available_marches device has1 found1 has2 found2 ∧
      count_available_marches device has1 found1 has2 found2 ≤ 2 := by
  revert device has1 found1 has2 found2
  decide

/-- Closed form of the retry loop: it performs one detection call per
attempt until the first hit (at most `rem` calls), and its result is the
tap outcome at the first hit's adjusted centre, or `false` if no attempt
hits. -/
theorem click_loop_spec (element_name : String) (detect : Nat → Option (Nat × Nat))
    (tap : Nat × Nat → Bool) :
    ∀ (rem a : Nat),
      (click_loop element_name detect tap a rem).2 ≤ rem ∧
      (click_loop element_name detect tap a rem).1 =
        (match (List.range' a rem).findSome?
            (fun i => (detect i).map (fun p => (adjust_click_x element_name p.1, p.2))) with
          | some q => tap q
          | none => false) := by
  intro rem
  induction rem with
  | zero => intro a; exact ⟨Nat.le_refl 0, rfl⟩
  | succ rem ih =>
    intro a
    rw [click_loop, List.range'_succ, List.findSome?_cons]
    obtain ⟨ihle, iheq⟩ := ih (a + 1)
    cases hd : detect a with
    | none => exact ⟨Nat.succ_le_succ ihle, iheq⟩
    | some p => exact ⟨Nat.succ_le_succ (Nat.zero_le rem), rfl⟩

/-! ## Claim theorems -/

/-- C2 (counterexample): the spec says each indicator *detected as absent*
reduces the count by one from a base of two.  With a device connected,
both indicators configured and both detections reporting absent, the code
returns 2 while the spec's reading demands 0: the code decrements on
*detected*, not on absent. -/
theorem count_available_marches_spec_counterexample :
    count_available_marches true true false true false ≠
      count_available_marches_specform false false := by
  decide

/-- C2 (amended): with a device connected, `count_available_marches`
returns 2 minus the number of the two indicators that are configured and
*detected as present* (each such indicator reduces the count by one from a
base of two); with no device it returns 0.  The operation is a pure read:
it is a function of the detection outcomes alone and mutates nothing. -/
theorem count_available_marches_corrected (has1 found1 has2 found2 : Bool) :
    count_available_marches true has1 found1 has2 found2 =
      2 - ((if has1 && found1 then 1 else 0) + (if has2 && found2 then 1 else 0)) ∧
    count_available_marches false has1 found1 has2 found2 = 0 := by
  revert has1 found1 has2 found2
  decide

/-- C6: with a detected march budget of 0, `explore_ruins_flow`
short-circuits at once: it returns `False` having made zero probe
attempts, and both the persisted explored set and the in-memory one are
completely unchanged. -/
theorem explore_ruins_flow_zero_budget (E : List String) (probe : Nat × Nat → Bool) :
    explore_ruins_flow 0 E probe =
      { ret := false, explored := E, disk := E, marches_used := 0, probes := [] } :=
  rfl

set_option maxRecDepth 40000 in
set_option maxHeartbeats 1000000 in
/-- C7: in the static catalog of `load_ruin_coordinates`, no (x, y)
coordinate pair appears twice anywhere: the flattened (level, area,
coordinate) walk order lists 690 pairwise-distinct pairs, so each pair
belongs to at most one area of one level. -/
theorem load_ruin_coordinates_no_duplicates : catalog_coords.Nodup := by
  have hd : distinct_bits (catalog_coords.map enc_pair) 0 = true := by decide
  exact List.Nodup.of_map enc_pair (distinct_bits_sound _ 0 hd).2

/-- C8: for every configuration (either indicator entry possibly missing)
and every pair of detection outcomes, `count_available_marches` returns an
integer in the range 0–2. -/
theorem count_available_marches_range (device has1 found1 has2 found2 : Bool) :
    0 ≤ count_available_marches device has1 found1 has2 found2 ∧
      count_available_marches device has1 found1 has2 found2 ≤ 2 :=
  count_available_marches_bounds device has1 found1 has2 found2

/-- C9: `click_element` performs at most `max_attempts` detection calls
(so in particular at most 4 with the default), and its result is `false`
whenever no device is connected, whenever the element is missing from
the configuration, whenever no detection call within the attempt budget
hits, and whenever the tap at the first hit fails: the result is exactly
"device and config present, a first hit exists among the `max_attempts`
attempts, and the tap at its adjusted centre succeeded". -/
theorem click_element_retry_bound (element_name : String) (device has_config : Bool)
    (detect : Nat → Option (Nat × Nat)) (tap : Nat × Nat → Bool) (max_attempts : Nat) :
    (click_element element_name device has_config detect tap max_attempts).2 ≤ max_attempts ∧
    (click_element element_name device has_config detect tap max_attempts).1 =
      (device && has_config &&
        match (List.range max_attempts).findSome?
            (fun i => (detect i).map (fun p => (adjust_click_x element_name p.1, p.2))) with
          | some q => tap q
          | none => false) := by
  obtain ⟨hle, heq⟩ := click_loop_spec element_name detect tap max_attempts 0
  rw [List.range_eq_range']
  cases device with
  | false => exact ⟨Nat.zero_le _, by simp [click_element]⟩
  | true =>
    cases has_config with
    | false => exact ⟨Nat.zero_le _, by simp [click_element]⟩
    | true =>
      refine ⟨?_, ?_⟩
      · simpa [click_element] using hle
      · simpa [click_element] using heq

/-- C10: in `search_ruin_at_coordinate` every path returns inside the
first `exploreNew` conditional — the run returns `True` exactly when both
coordinate inputs succeed and the single `exploreNew` click succeeds — so
the following ruin-variant block is dead: no run ever probes
`foundRuin6`, `foundRuin4`, `foundRuin5`, `foundRuin3` or `1231d12d`, and
no run makes a second `exploreNew` click. -/
theorem search_ruin_at_coordinate_dead_code (o : ProbeId → Bool) :
    (search_ruin_at_coordinate_body.exec o).1 =
      some (o .inputX && o .inputY && o .exploreNew) ∧
    (search_ruin_at_coordinate_body.exec o).2.filter is_ruin_variant_probe = [] ∧
    (search_ruin_at_coordinate_body.exec o).2.count ProbeId.exploreNew ≤ 1 := by
  cases hx : o ProbeId.inputX <;> cases hy : o ProbeId.inputY <;>
    cases hz : o ProbeId.exploreNew <;>
      simp [search_ruin_at_coordinate_body, Stmt.exec, ruin_variant_block, hx, hy, hz,
        is_ruin_variant_probe, List.count_cons]

/-- C1: with the march budget `B` delivered by the budget probe and any
initial explored set `E`, `explore_ruins_flow` probes a subsequence of the
catalog's fixed (level, area, coordinate) walk order; it probes no
coordinate whose key is in `E`; `marches_used` counts exactly the
successful probes; every probe is made while the used-count is still
strictly below `B` (so no probe happens once the count reached `B`); and
the number of successful probes never exceeds `B`. -/
theorem explore_ruins_flow_budget_discipline (d h1 f1 h2 f2 : Bool) (E : List String)
    (probe : Nat × Nat → Bool) :
    (explore_ruins_flow (count_available_marches d h1 f1 h2 f2) E probe).probes.Sublist
        catalog_coords ∧
    (explore_ruins_flow (count_available_marches d h1 f1 h2 f2) E probe).probes.filter
        (fun c => E.contains (coord_key c)) = [] ∧
    (explore_ruins_flow (count_available_marches d h1 f1 h2 f2) E probe).marches_used =
      (explore_ruins_flow (count_available_marches d h1 f1 h2 f2) E probe).probes.countP
        probe ∧
    ((List.range
        (explore_ruins_flow (count_available_marches d h1 f1 h2 f2) E probe).probes.length).all
      fun i => decide
        ((((explore_ruins_flow (count_available_marches d h1 f1 h2 f2) E probe).probes.take
              i).countP probe : Int) < count_available_marches d h1 f1 h2 f2)) = true ∧
    ((explore_ruins_flow (count_available_marches d h1 f1 h2 f2) E probe).marches_used : Int) ≤
      count_available_marches d h1 f1 h2 f2 := by
  set B := count_available_marches d h1 f1 h2 f2 with hBdef
  by_cases hB0 : B = 0
  · rw [hB0, explore_ruins_flow_zero_budget]
    refine ⟨List.nil_sublist _, rfl, rfl, rfl, ?_⟩
    simp
  · rw [explore_ruins_flow_eq_foldl B E probe hB0]
    dsimp only
    obtain ⟨h_used, h_exp, h_disk, h_nd, h_notE, h_pref, h_le⟩ :=
      foldl_flow_step_inv catalog_coords (flow_inv_init B probe E)
    obtain ⟨t, ht, hs⟩ := foldl_flow_step_probes_sublist B probe catalog_coords
      { marches_used := 0, explored := E, disk := E, probes := [] }
    refine ⟨?_, ?_, h_used, ?_, ?_⟩
    · rw [ht, List.nil_append]
      exact hs
    · rw [List.filter_eq_nil_iff]
      intro c hc
      simp only [List.elem_eq_mem, decide_eq_true_eq]
      exact h_notE c hc
    · rw [List.all_eq_true]
      intro i hi
      rw [List.mem_range] at hi
      exact decide_eq_true (h_pref i hi)
    · exact h_le (count_available_marches_bounds d h1 f1 h2 f2).1

/-- C3: every coordinate the probe was invoked on ends up with its key in
the in-memory explored list and in the persisted copy, whatever the probe
outcomes were (`probe` is arbitrary, so in particular for failed probes);
a single loop step that probes persists the explored list immediately
(`disk = explored` right after the step); and no coordinate is ever
probed twice in a run. -/
theorem explore_ruins_flow_marks_probed_explored (B : Int) (E : List String)
    (probe : Nat × Nat → Bool) (st : FlowState) (c : Nat × Nat) :
    (explore_ruins_flow B E probe).probes.filter
        (fun x => !((explore_ruins_flow B E probe).explored.contains (coord_key x))) = [] ∧
    (explore_ruins_flow B E probe).probes.filter
        (fun x => !((explore_ruins_flow B E probe).disk.contains (coord_key x))) = [] ∧
    (explore_ruins_flow B E probe).probes.Nodup ∧
    ((flow_step B probe st c).probes = st.probes ∨
      (flow_step B probe st c).disk = (flow_step B probe st c).explored) := by
  have hstep : (flow_step B probe st c).probes = st.probes ∨
      (flow_step B probe st c).disk = (flow_step B probe st c).explored := by
    rw [flow_step_eq]
    split_ifs
    · exact Or.inl rfl
    · exact Or.inl rfl
    · exact Or.inr rfl
    · exact Or.inr rfl
  by_cases hB0 : B = 0
  · refine ⟨?_, ?_, ?_, hstep⟩ <;> rw [hB0, explore_ruins_flow_zero_budget] <;>
      first
      | rfl
      | exact List.nodup_nil
  · rw [explore_ruins_flow_eq_foldl B E probe hB0]
    dsimp only
    obtain ⟨h_used, h_exp, h_disk, h_nd, h_notE, h_pref, h_le⟩ :=
      foldl_flow_step_inv catalog_coords (flow_inv_init B probe E)
    have hmem : ∀ x ∈ (catalog_coords.foldl (flow_step B probe)
        { marches_used := 0, explored := E, disk := E, probes := [] }).probes,
        coord_key x ∈ (catalog_coords.foldl (flow_step B probe)
          { marches_used := 0, explored := E, disk := E, probes := [] }).explored := by
      intro x hx
      rw [h_exp]
      exact List.mem_append_right E (List.mem_map_of_mem coord_key hx)
    refine ⟨?_, ?_, h_nd, hstep⟩
    · rw [List.filter_eq_nil_iff]
      intro x hx
      simp only [List.elem_eq_mem, Bool.not_eq_true', decide_eq_false_iff_not, not_not]
      exact hmem x hx
    · rcases h_disk with hdd | ⟨hp, _⟩
      · rw [List.filter_eq_nil_iff]
        intro x hx
        simp only [hdd, List.elem_eq_mem, Bool.not_eq_true', decide_eq_false_iff_not, not_not]
        exact hmem x hx
      · rw [hp]
        rfl

/-- C4: a coordinate whose key is in the explored set loaded at flow
start is never probed during the run: the probe trace contains no
coordinate whose key is in `E`. -/
theorem explore_ruins_flow_skips_explored (B : Int) (E : List String)
    (probe : Nat × Nat → Bool) :
    (explore_ruins_flow B E probe).probes.filter
        (fun c => E.contains (coord_key c)) = [] := by
  by_cases hB0 : B = 0
  · rw [hB0, explore_ruins_flow_zero_budget]
    rfl
  · rw [explore_ruins_flow_eq_foldl B E probe hB0]
    dsimp only
    obtain ⟨h_used, h_exp, h_disk, h_nd, h_notE, h_pref, h_le⟩ :=
      foldl_flow_step_inv catalog_coords (flow_inv_init B probe E)
    rw [List.filter_eq_nil_iff]
    intro c hc
    simp only [List.elem_eq_mem, decide_eq_true_eq]
    exact h_notE c hc

/-- C5: running the flow with the probed budget and an empty initial
explored set leaves an explored list with at least `B` entries (one per
attempt made) and at most the total number of catalog coordinates. -/
theorem explore_ruins_flow_explored_growth (d h1 f1 h2 f2 : Bool)
    (probe : Nat × Nat → Bool) :
    count_available_marches d h1 f1 h2 f2 ≤
      ((explore_ruins_flow (count_available_marches d h1 f1 h2 f2) [] probe).explored.length :
        Int) ∧
    (explore_ruins_flow (count_available_marches d h1 f1 h2 f2) [] probe).explored.length ≤
      catalog_coords.length := by
  set B := count_available_marches d h1 f1 h2 f2 with hBdef
  by_cases hB0 : B = 0
  · rw [hB0, explore_ruins_flow_zero_budget]
    exact ⟨by simp, Nat.zero_le _⟩
  · rw [explore_ruins_flow_eq_foldl B [] probe hB0]
    dsimp only
    set st := catalog_coords.foldl (flow_step B probe)
      { marches_used := 0, explored := [], disk := [], probes := [] } with hst
    obtain ⟨h_used, h_exp, h_disk, h_nd, h_notE, h_pref, h_le⟩ :=
      foldl_flow_step_inv catalog_coords (flow_inv_init B probe [])
    obtain ⟨t, ht, hsub⟩ := foldl_flow_step_probes_sublist B probe catalog_coords
      { marches_used := 0, explored := [], disk := [], probes := [] }
    rw [← hst] at h_used h_exp ht
    have hlen : st.explored.length = st.probes.length := by
      rw [h_exp, List.nil_append, List.length_map]
    constructor
    · rcases foldl_flow_step_budget_or_explored B probe catalog_coords
        { marches_used := 0, explored := [], disk := [], probes := [] } with hBle | hall
      · rw [← hst] at hBle
        have hcp : st.probes.countP probe ≤ st.probes.length :=
          List.countP_le_length probe
        rw [hlen]
        omega
      · rw [← hst] at hall
        have hm1 : coord_key (15, 149) ∈ st.explored := hall (15, 149) (by decide)
        have hm2 : coord_key (33, 175) ∈ st.explored := hall (33, 175) (by decide)
        have hne : coord_key (15, 149) ≠ coord_key (33, 175) := by decide
        have htwo := two_le_length_of_two_mem hm1 hm2 hne
        have hub := (count_available_marches_bounds d h1 f1 h2 f2).2
        rw [← hBdef] at hub
        omega
    · rw [hlen, ht, List.nil_append]
      exact hsub.length_le

end CityManager
